import Mathlib

/- A shallow embedding of the core of src/virtManager/domain.py (class
   vmmDomain): the statistics sampler (tick and its helpers), the XML cache
   and redefine engine, device structural addressing, and lifecycle status
   normalization.

   Modelling conventions:
   - Python floats (timestamps, percentages, rates) are rationals (ℚ);
     division by zero yields 0 in ℚ where Python would raise, which is noted
     at each use site.
   - Python 2 integers are ℤ; a Python 2 division of two integers is floor
     division and is modelled with Int.fdiv.
   - External collaborators (the libvirt backend, gconf configuration and the
     host connection) are explicit parameters: Backend carries the XML
     descriptions the backend would return, Env carries connection state and
     configuration, TickInput carries the per-tick counter readings.
   - Calls to the define/submit collaborator (conn.define_domain) are
     returned as an explicit event list instead of performed. -/

/-! Libvirt domain state codes, as used by domain.py. -/

def VIR_DOMAIN_NOSTATE : ℕ := 0
def VIR_DOMAIN_RUNNING : ℕ := 1
def VIR_DOMAIN_BLOCKED : ℕ := 2
def VIR_DOMAIN_PAUSED : ℕ := 3
def VIR_DOMAIN_SHUTDOWN : ℕ := 4
def VIR_DOMAIN_SHUTOFF : ℕ := 5
def VIR_DOMAIN_CRASHED : ℕ := 6

/- The value stored in newStats["cpuTimeMovingAvg"]: on the very first tick
   the source stores the literal Python list ["cpuTimeAbs"], afterwards an
   integer (Python 2 floor division of two ints). -/
inductive MovingAvg
  | strList (l : List String)
  | num (z : ℤ)
deriving DecidableEq

/- The four rate fields tracked by self.maxRecord. -/
inductive RateField
  | diskRd
  | diskWr
  | netRx
  | netTx
deriving DecidableEq

def rate_fields : List RateField :=
  [RateField.diskRd, RateField.diskWr, RateField.netRx, RateField.netTx]

/- One entry of self.record: the newStats dictionary built in tick. -/
structure Sample where
  timestamp : ℚ
  cpuTime : ℤ
  cpuTimeAbs : ℤ
  cpuTimePercent : ℚ
  currMem : ℤ
  currMemPercent : ℚ
  vcpuCount : ℤ
  maxMem : ℤ
  maxMemPercent : ℚ
  diskRdKB : ℤ
  diskWrKB : ℤ
  netRxKB : ℤ
  netTxKB : ℤ
  cpuTimeMovingAvg : MovingAvg
  cpuTimeMovingAvgPercent : ℚ
  diskRdRate : ℚ
  diskWrRate : ℚ
  netRxRate : ℚ
  netTxRate : ℚ
deriving DecidableEq

/- record[r + "KB"] lookup used by _get_cur_rate. -/
def Sample.kbOf (s : Sample) : RateField → ℤ
  | RateField.diskRd => s.diskRdKB
  | RateField.diskWr => s.diskWrKB
  | RateField.netRx => s.netRxKB
  | RateField.netTx => s.netTxKB

/- record[r + "Rate"] lookup used by _set_max_rate and the vector helpers. -/
def Sample.rateOf (s : Sample) : RateField → ℚ
  | RateField.diskRd => s.diskRdRate
  | RateField.diskWr => s.diskWrRate
  | RateField.netRx => s.netRxRate
  | RateField.netTx => s.netTxRate

/- self.maxRecord, initialised to 10.0 per field in __init__. -/
structure MaxRecord where
  diskRdRate : ℚ
  diskWrRate : ℚ
  netTxRate : ℚ
  netRxRate : ℚ
deriving DecidableEq

def MaxRecord.get (m : MaxRecord) : RateField → ℚ
  | RateField.diskRd => m.diskRdRate
  | RateField.diskWr => m.diskWrRate
  | RateField.netRx => m.netRxRate
  | RateField.netTx => m.netTxRate

def MaxRecord.set (m : MaxRecord) : RateField → ℚ → MaxRecord
  | RateField.diskRd, v => { m with diskRdRate := v }
  | RateField.diskWr, v => { m with diskWrRate := v }
  | RateField.netRx, v => { m with netRxRate := v }
  | RateField.netTx, v => { m with netTxRate := v }

/- The libvirt virDomainInfo 5-tuple returned by self.get_info():
   info[0] state, info[1] maxMem, info[2] memory, info[3] nrVirtCpu,
   info[4] cpuTime (nanoseconds). -/
structure DomInfo where
  state : ℕ
  maxMem : ℤ
  memory : ℤ
  nrVirtCpu : ℤ
  cpuTime : ℤ
deriving DecidableEq

/- Outcome of one interfaceStats/blockStats call: the two counter values the
   sampler reads from the returned tuple (rx=io[0], tx=io[4] for net;
   rd=io[1], wr=io[3] for disk), or a libvirt error. -/
inductive QueryOutcome
  | ok (a b : ℤ)
  | errUnsupported
  | errOther
deriving DecidableEq

/- One device row as seen by the sampling loop: the target dev name (None is
   skipped by the source) and what the stats query would return for it. -/
structure StatDev where
  dev : Option String
  outcome : QueryOutcome
deriving DecidableEq

/- Connection / configuration environment read during a tick. -/
structure Env where
  connActive : Bool
  domId : ℤ
  hostMem : ℤ
  hostProcs : ℤ
  historyLength : ℕ
  netPollEnabled : Bool
  diskPollEnabled : Bool
deriving DecidableEq

/- The libvirt backend's XML answers: XMLDesc with active flags and with
   INACTIVE flags. -/
structure Backend where
  activeDesc : String
  inactiveDesc : String
deriving DecidableEq

/- Per-tick inputs from the outside world. -/
structure TickInput where
  now : ℚ
  info : DomInfo
  netDevs : List StatDev
  diskDevs : List StatDev
deriving DecidableEq

/- Which stats queries a tick performed (device names passed to
   interfaceStats resp. blockStats). -/
structure TickTrace where
  netQueried : List String
  diskQueried : List String
deriving DecidableEq

/- The mutable state of a vmmDomain object (the fields relevant to the
   sampler, cache and status machinery). -/
structure DomainState where
  record : List Sample
  maxRecord : MaxRecord
  lastStatus : Option ℕ
  xml : Option String
  inactiveXml : Option String
  isXmlValid : Bool
  statsNetSupported : Bool
  statsDiskSupported : Bool
deriving DecidableEq

/-! Lifecycle status. -/

/- _normalize_status: NOSTATE and BLOCKED map to RUNNING. -/
def normalize_status (status : ℕ) : ℕ :=
  if status = VIR_DOMAIN_NOSTATE then VIR_DOMAIN_RUNNING
  else if status = VIR_DOMAIN_BLOCKED then VIR_DOMAIN_RUNNING
  else status

/- _update_status with an explicit raw status argument, as called from tick.
   On a transition whose prior state is SHUTDOWN/SHUTOFF/CRASHED the cached
   inactive XML is dropped.  The status-changed signal emission is not
   modelled. -/
def update_status (st : DomainState) (rawStatus : ℕ) : DomainState :=
  let status := normalize_status rawStatus
  if some status ≠ st.lastStatus then
    let st1 :=
      if st.lastStatus ∈ [some VIR_DOMAIN_SHUTDOWN, some VIR_DOMAIN_SHUTOFF,
                          some VIR_DOMAIN_CRASHED] then
        { st with inactiveXml := none }
      else st
    { st1 with lastStatus := some status }
  else st

/-! Stats sampling helpers. -/

/- _sample_mem_stats: percentages of host memory.  (In ℚ a zero host memory
   size would give 0 where Python raises; percentages are otherwise exact.) -/
def sample_mem_stats (info : DomInfo) (hostMem : ℤ) : ℚ × ℚ :=
  let pcentCurrMem := (info.memory : ℚ) * 100 / (hostMem : ℚ)
  let pcentMaxMem := (info.maxMem : ℚ) * 100 / (hostMem : ℚ)
  (pcentCurrMem, pcentMaxMem)

/- _sample_cpu_stats: returns (cpuTime delta, cpuTimeAbs, clamped percent).
   record is self.record at the time of the call (already trimmed by tick). -/
def sample_cpu_stats (record : List Sample) (info : DomInfo) (now : ℚ)
    (hostProcs : ℤ) : ℤ × ℤ × ℚ :=
  let prevTimestamp : ℚ := match record with | [] => 0 | r :: _ => r.timestamp
  let prevCpuTime : ℤ := match record with | [] => 0 | r :: _ => r.cpuTimeAbs
  if info.state = VIR_DOMAIN_SHUTOFF ∨ info.state = VIR_DOMAIN_CRASHED then
    (0, 0, 0)
  else
    let cpuTime := info.cpuTime - prevCpuTime
    let cpuTimeAbs := info.cpuTime
    let p := (cpuTime : ℚ) * 100 /
      (((now - prevTimestamp) * (1000 * 1000 * 1000)) * (hostProcs : ℚ))
    let p1 := if p > 100 then 100 else p
    let p2 := if p1 < 0 then 0 else p1
    (cpuTime, cpuTimeAbs, p2)

/- Common body of _sample_network_traffic and _sample_disk_io: iterate over
   the device rows, skip rows without a dev name, accumulate the two counters
   on success, permanently clear the supported flag on VIR_ERR_NO_SUPPORT,
   log-and-continue on any other error.  Also records which devices were
   queried.  Result: ((counterA, counterB), supported flag, queried devs). -/
def sample_io_step (acc : (ℤ × ℤ) × Bool × List String) (d : StatDev) :
    (ℤ × ℤ) × Bool × List String :=
  match d.dev with
  | none => acc
  | some name =>
    let q := acc.2.2 ++ [name]
    match d.outcome with
    | QueryOutcome.ok a b => ((acc.1.1 + a, acc.1.2 + b), acc.2.1, q)
    | QueryOutcome.errUnsupported => (acc.1, false, q)
    | QueryOutcome.errOther => (acc.1, acc.2.1, q)

def sample_io_counters (isActive supported : Bool) (devs : List StatDev) :
    (ℤ × ℤ) × Bool × List String :=
  if !supported || !isActive then ((0, 0), supported, [])
  else devs.foldl sample_io_step ((0, 0), true, [])

/- _sample_network_traffic (rx = io[0], tx = io[4]). -/
def sample_network_traffic (isActive supported : Bool) (devs : List StatDev) :
    (ℤ × ℤ) × Bool × List String :=
  sample_io_counters isActive supported devs

/- _sample_disk_io (rd = io[1], wr = io[3]). -/
def sample_disk_traffic (isActive supported : Bool) (devs : List StatDev) :
    (ℤ × ℤ) × Bool × List String :=
  sample_io_counters isActive supported devs

/- _get_cur_rate: rate between the two newest samples already in the record
   (the new sample is not yet inserted when this runs).  The source returns
   max(ret, 0, 0), the Python max of three arguments, i.e. a floor at zero.
   (Equal timestamps make Python raise ZeroDivisionError; in ℚ the quotient
   is the junk value 0, which the floor keeps at 0.) -/
def get_cur_rate (record : List Sample) (f : RateField) : ℚ :=
  match record with
  | r0 :: r1 :: _ =>
    max (max (((r0.kbOf f - r1.kbOf f : ℤ) : ℚ) /
              (r0.timestamp - r1.timestamp)) 0) 0
  | _ => max (max 0 0) 0

/- _set_max_rate: raise the per-field running maximum if exceeded. -/
def set_max_rate (m : MaxRecord) (f : RateField) (v : ℚ) : MaxRecord :=
  if v > m.get f then m.set f v else m

/- The newStats dictionary built by tick, once the counters have been read.
   record is self.record after the trim; info is self.get_info() after the
   Dom0 max-memory clamp; the four byte counts are what _disk_io() and
   _network_traffic() returned.  Byte counts are divided by 1024 with Python 2
   integer (floor) division.  The moving average window covers the newest
   min(5, len(record)) samples; its percent form is NOT clamped (unlike
   _sample_cpu_stats). -/
def mk_new_stats (info : DomInfo) (now : ℚ) (hostProcs hostMem : ℤ)
    (record : List Sample) (rdBytes wrBytes rxBytes txBytes : ℤ) : Sample :=
  let cpu := sample_cpu_stats record info now hostProcs
  let mem := sample_mem_stats info hostMem
  let avgPair : MovingAvg × ℚ :=
    match record with
    | [] => (MovingAvg.strList ["cpuTimeAbs"], 0)
    | r0 :: rest =>
      let nSamples := min 5 (r0 :: rest).length
      let startS := (r0 :: rest).getD (nSamples - 1) r0
      (MovingAvg.num ((cpu.2.1 - startS.cpuTimeAbs).fdiv (nSamples : ℤ)),
       ((cpu.2.1 - startS.cpuTimeAbs : ℤ) : ℚ) * 100 /
         (((now - startS.timestamp) * (1000 * 1000 * 1000)) * (hostProcs : ℚ)))
  { timestamp := now
    cpuTime := cpu.1
    cpuTimeAbs := cpu.2.1
    cpuTimePercent := cpu.2.2
    currMem := info.memory
    currMemPercent := mem.1
    vcpuCount := info.nrVirtCpu
    maxMem := info.maxMem
    maxMemPercent := mem.2
    diskRdKB := rdBytes.fdiv 1024
    diskWrKB := wrBytes.fdiv 1024
    netRxKB := rxBytes.fdiv 1024
    netTxKB := txBytes.fdiv 1024
    cpuTimeMovingAvg := avgPair.1
    cpuTimeMovingAvgPercent := avgPair.2
    diskRdRate := get_cur_rate record RateField.diskRd
    diskWrRate := get_cur_rate record RateField.diskWr
    netRxRate := get_cur_rate record RateField.netRx
    netTxRate := get_cur_rate record RateField.netTx }

/- _invalidate_xml. -/
def invalidate_xml (st : DomainState) : DomainState :=
  { st with isXmlValid := false, inactiveXml := none }

/- The record trim at the top of tick:
   if current > expected, del self.record[expected:current]. -/
def trim_record (cfg : ℕ) (record : List Sample) : List Sample :=
  if record.length > cfg then record.take cfg else record

/- The Dom0 max-memory clamp in tick: info[1] = host memory for id 0. -/
def dom0_info (env : Env) (info : DomInfo) : DomInfo :=
  if env.domId = 0 then { info with maxMem := env.hostMem } else info

/- self._disk_io(): the real sampler when disk polling is enabled, the
   dummy (0, 0) otherwise (toggle_sample_disk_io keeps the dispatch in sync
   with the config flag). -/
def poll_disk (env : Env) (st : DomainState) (devs : List StatDev) :
    (ℤ × ℤ) × Bool × List String :=
  if env.diskPollEnabled then
    sample_disk_traffic (decide (env.domId ≠ -1)) st.statsDiskSupported devs
  else ((0, 0), st.statsDiskSupported, [])

/- self._network_traffic(): as poll_disk, for the net sampler. -/
def poll_net (env : Env) (st : DomainState) (devs : List StatDev) :
    (ℤ × ℤ) × Bool × List String :=
  if env.netPollEnabled then
    sample_network_traffic (decide (env.domId ≠ -1)) st.statsNetSupported devs
  else ((0, 0), st.statsNetSupported, [])

/- The newStats sample a tick stores, given the pre-tick state. -/
def tick_sample (env : Env) (inp : TickInput) (st : DomainState) : Sample :=
  mk_new_stats (dom0_info env inp.info) inp.now env.hostProcs env.hostMem
    (trim_record env.historyLength st.record)
    (poll_disk env st inp.diskDevs).1.1 (poll_disk env st inp.diskDevs).1.2
    (poll_net env st inp.netDevs).1.1 (poll_net env st inp.netDevs).1.2

/- tick(now): the full per-tick pipeline.  Early-returns when the connection
   is not active.  Otherwise: invalidate cached xml, trim the record to the
   configured history length, clamp Dom0 max memory to host memory, sample
   cpu/mem/disk/net, build newStats (including the moving average and the
   four rates), update the running maxima, prepend the sample, and update the
   lifecycle status from info[0]. -/
def tick (env : Env) (inp : TickInput) (st : DomainState) :
    DomainState × TickTrace :=
  if env.connActive = false then (st, ⟨[], []⟩)
  else
    let st1 := invalidate_xml st
    let newStats := tick_sample env inp st1
    let newMax := rate_fields.foldl
      (fun m f => set_max_rate m f (newStats.rateOf f)) st1.maxRecord
    let st2 := { st1 with
      record := newStats :: trim_record env.historyLength st1.record
      maxRecord := newMax
      statsDiskSupported := (poll_disk env st1 inp.diskDevs).2.1
      statsNetSupported := (poll_net env st1 inp.netDevs).2.1 }
    let st3 := update_status st2 inp.info.state
    (st3, ⟨(poll_net env st1 inp.netDevs).2.2, (poll_disk env st1 inp.diskDevs).2.2⟩)

/- A sequence of ticks (the cadence driver). -/
def run_ticks : List (Env × TickInput) → DomainState → DomainState
  | [], st => st
  | (e, i) :: rest, st => run_ticks rest (tick e i st).1

/- Like run_ticks but also collecting each tick's query trace. -/
def run_traces : List (Env × TickInput) → DomainState → DomainState × List TickTrace
  | [], st => (st, [])
  | (e, i) :: rest, st =>
    let r := tick e i st
    let rr := run_traces rest r.1
    (rr.1, r.2 :: rr.2)

/- The state built by __init__: empty record, maxRecord all 10.0, no cached
   xml, stats queries assumed supported; __init__ then runs _update_status()
   on the first fetched status. -/
def fresh_state : DomainState :=
  { record := []
    maxRecord := { diskRdRate := 10, diskWrRate := 10,
                   netTxRate := 10, netRxRate := 10 }
    lastStatus := none
    xml := none
    inactiveXml := none
    isXmlValid := false
    statsNetSupported := true
    statsDiskSupported := true }

def init_state (s0 : ℕ) : DomainState := update_status fresh_state s0

/-! XML cache and the redefine engine. -/

/- _get_inactive_xml: lazily fetch once and cache. -/
def get_inactive_xml (b : Backend) (st : DomainState) : DomainState × String :=
  match st.inactiveXml with
  | some x => (st, x)
  | none => ({ st with inactiveXml := some b.inactiveDesc }, b.inactiveDesc)

/- refresh_xml: refetch the active XML, mark it valid, and if it changed run
   a tick (which is what forces the config-changed consumers to resample);
   the tick needs ambient env/input, passed through explicitly.  The
   config-changed signal emission is not modelled. -/
def refresh_xml (env : Env) (inp : TickInput) (b : Backend)
    (st : DomainState) : DomainState :=
  let origxml := st.xml
  let st1 := { st with xml := some b.activeDesc, isXmlValid := true }
  if origxml ≠ some b.activeDesc then (tick env inp st1).1 else st1

/- _xml_fetch_helper. -/
def xml_fetch_helper (env : Env) (inp : TickInput) (b : Backend)
    (st : DomainState) (refreshIfNecc : Bool) : DomainState × String :=
  let st1 :=
    if st.xml = none then refresh_xml env inp b st
    else if refreshIfNecc && !st.isXmlValid then refresh_xml env inp b st
    else st
  (st1, st1.xml.getD "")

/- get_xml. -/
def get_xml (env : Env) (inp : TickInput) (b : Backend)
    (st : DomainState) : DomainState × String :=
  xml_fetch_helper env inp b st true

/- get_xml_to_define: active domain edits the inactive (persistent) XML;
   an inactive domain invalidates and refetches the active XML. -/
def get_xml_to_define (env : Env) (inp : TickInput) (b : Backend)
    (st : DomainState) : DomainState × String :=
  if env.domId ≠ -1 then get_inactive_xml b st
  else get_xml env inp b (invalidate_xml st)

/- redefine(xml_func): fetch the base document, normalize it through a
   parse-serialize round trip (the normalize parameter stands for
   util.xml_parse_wrapper(origxml, serialize)), apply the transform, and if
   anything changed submit the result via conn.define_domain and invalidate
   the cache.  The returned list holds the XML of each define call made. -/
def redefine (env : Env) (inp : TickInput) (b : Backend) (st : DomainState)
    (normalize xml_func : String → String) : DomainState × List String :=
  let r := get_xml_to_define env inp b st
  let origxml := normalize r.2
  let newxml := xml_func origxml
  if origxml = newxml then (r.1, [])
  else (invalidate_xml r.1, [newxml])

/-! Structural addressing of devices inside a configuration document.
    A document is the ordered list of device nodes under /domain/devices;
    each node carries the identity attribute its kind is addressed by. -/

inductive DevNode
  | serial (port : String)
  | console (port : String)
  | parallel (port : String)
  | disk (target : String)
  | interface (mac : String)
  | other (tag : String)
deriving DecidableEq

inductive DevType
  | serial
  | console
  | parallel
  | disk
  | interface
deriving DecidableEq

/- The per-kind XPath match predicate built by _get_device_xml_xpath. -/
def node_matches : DevType → String → DevNode → Bool
  | DevType.serial, id, DevNode.serial p => p = id
  | DevType.console, id, DevNode.console p => p = id
  | DevType.parallel, id, DevNode.parallel p => p = id
  | DevType.disk, id, DevNode.disk t => t = id
  | DevType.interface, id, DevNode.interface m => m = id
  | _, _, _ => false

/- xpathEval of a "...[pred][1]" expression: index of the first match. -/
def find_first_idx (p : DevNode → Bool) : List DevNode → Option ℕ
  | [] => none
  | a :: as => if p a then some 0 else (find_first_idx p as).map (· + 1)

/- _get_device_xml_nodes: the indices of the nodes to alter/remove.  For a
   serial device the console node sharing the target port is appended, and an
   empty result raises "Could not find device". -/
def get_device_xml_nodes (doc : List DevNode) (t : DevType) (id : String) :
    Except String (List ℕ) :=
  let ret := match find_first_idx (node_matches t id) doc with
    | some i => [i]
    | none => []
  let ret := if t = DevType.serial then
      match find_first_idx (node_matches DevType.console id) doc with
      | some j => if ret ≠ [] then ret ++ [j] else ret
      | none => ret
    else ret
  if ret.isEmpty then Except.error "Could not find device" else Except.ok ret

/- node.unlinkNode() for each addressed node: drop the nodes at the given
   positions of the original document (libxml node identity is positional
   identity here, and unlinking does not renumber the already-looked-up
   nodes). -/
def unlink_nodes_aux (k : ℕ) (doc : List DevNode) (idxs : List ℕ) :
    List DevNode :=
  match doc with
  | [] => []
  | a :: as =>
    if k ∈ idxs then unlink_nodes_aux (k + 1) as idxs
    else a :: unlink_nodes_aux (k + 1) as idxs

def unlink_nodes (doc : List DevNode) (idxs : List ℕ) : List DevNode :=
  unlink_nodes_aux 0 doc idxs

/- The _remove_xml_device transform of remove_device: address the nodes and
   unlink them all, serializing the remaining document. -/
def remove_xml_device (doc : List DevNode) (t : DevType) (id : String) :
    Except String (List DevNode) :=
  (get_device_xml_nodes doc t id).map (unlink_nodes doc)

/- check_device_is_present: look the device up in the inactive XML; if that
   lookup fails, fall back to the active XML (ok means "present there, treat
   as converged", i.e. return False); if that fails too, re-raise the
   original failure. -/
def check_device_is_present (inactiveDoc activeDoc : List DevNode)
    (t : DevType) (id : String) : Except String Bool :=
  match get_device_xml_nodes inactiveDoc t id with
  | Except.ok _ => Except.ok true
  | Except.error e =>
    match get_device_xml_nodes activeDoc t id with
    | Except.ok _ => Except.ok false
    | Except.error _ => Except.error e

/- remove_device at the document level: if the presence check says the
   device is absent-but-converged, return successfully without submitting
   anything (none); if present in the inactive document, submit the document
   with the addressed nodes removed (some newDoc); otherwise propagate the
   lookup failure. -/
def remove_device_doc (inactiveDoc activeDoc : List DevNode)
    (t : DevType) (id : String) : Except String (Option (List DevNode)) :=
  match check_device_is_present inactiveDoc activeDoc t id with
  | Except.error e => Except.error e
  | Except.ok false => Except.ok none
  | Except.ok true =>
    (get_device_xml_nodes inactiveDoc t id).map
      (fun idxs => some (unlink_nodes inactiveDoc idxs))

/-! Chart vector production. -/

/- _in_out_vector_helper: two concatenated series, each padded with zeros to
   the configured length + 1 entries, normalized by the larger of the two
   running maxima. -/
def in_out_vector_helper (cfgLen : ℕ) (st : DomainState)
    (name1 name2 : RateField) : List ℚ :=
  let ceil := max (st.maxRecord.get name1) (st.maxRecord.get name2)
  let stats := st.record
  let mk : RateField → List ℚ := fun n =>
    (List.range (cfgLen + 1)).map (fun i =>
      match stats.get? i with
      | some s => s.rateOf n / ceil
      | none => 0)
  mk name1 ++ mk name2

/- The sampler invariant behind chart normalization: every running maximum
   is at least its initial 10.0 and bounds every recorded rate, and recorded
   rates are never negative. -/
def stats_inv (st : DomainState) : Prop :=
  (∀ f, 10 ≤ st.maxRecord.get f) ∧
  ∀ s ∈ st.record, ∀ f, 0 ≤ s.rateOf f ∧ s.rateOf f ≤ st.maxRecord.get f

/-! Concrete fixtures used to exercise the model on explicit inputs. -/

/- A live connection with history length cfg, a non-Dom0 active domain on a
   1-processor, 1 KB-memory host, with net/disk polling disabled. -/
def cx_env (cfg : ℕ) : Env :=
  { connActive := true, domId := 1, hostMem := 1, hostProcs := 1,
    historyLength := cfg, netPollEnabled := false, diskPollEnabled := false }

/- A tick at wall time now for a running domain with the given cumulative
   cpu time (nanoseconds). -/
def cx_inp (now : ℚ) (cpu : ℤ) : TickInput :=
  { now := now,
    info := { state := VIR_DOMAIN_RUNNING, maxMem := 1, memory := 1,
              nrVirtCpu := 1, cpuTime := cpu },
    netDevs := [], diskDevs := [] }

/- The sample produced by the first cx tick (now = 1, cpuTime = 0). -/
def cx_sample1 : Sample :=
  { timestamp := 1, cpuTime := 0, cpuTimeAbs := 0, cpuTimePercent := 0,
    currMem := 1, currMemPercent := 100, vcpuCount := 1, maxMem := 1,
    maxMemPercent := 100, diskRdKB := 0, diskWrKB := 0, netRxKB := 0,
    netTxKB := 0, cpuTimeMovingAvg := MovingAvg.strList ["cpuTimeAbs"],
    cpuTimeMovingAvgPercent := 0, diskRdRate := 0, diskWrRate := 0,
    netRxRate := 0, netTxRate := 0 }

/- The state after that first cx tick from init_state VIR_DOMAIN_SHUTOFF. -/
def cx_state1 : DomainState :=
  { record := [cx_sample1]
    maxRecord := { diskRdRate := 10, diskWrRate := 10,
                   netTxRate := 10, netRxRate := 10 }
    lastStatus := some VIR_DOMAIN_RUNNING
    xml := none
    inactiveXml := none
    isXmlValid := false
    statsNetSupported := true
    statsDiskSupported := true }

def cx_backend : Backend := { activeDesc := "x", inactiveDesc := "fresh" }

/- The cx environment for a stopped (inactive) domain. -/
def cx_env_stopped : Env := { cx_env 5 with domId := -1 }

/- A state whose cached active XML is marked invalid. -/
def cx_state_invalid : DomainState := { fresh_state with xml := some "x" }

/- A state last seen shut off, with a cached inactive document. -/
def cx_state_shutoff : DomainState :=
  { fresh_state with lastStatus := some VIR_DOMAIN_SHUTOFF,
                     inactiveXml := some "olddoc" }

/- A state whose counter categories have been marked unsupported. -/
def cx_state_unsup : DomainState :=
  { fresh_state with statsNetSupported := false, statsDiskSupported := false }

/- A document with a serial device and its paired console on port 0. -/
def cx_doc : List DevNode :=
  [DevNode.other "emulator", DevNode.serial "0", DevNode.console "0"]

/-! Helper lemmas about the embedded operations. -/

lemma update_status_record (st : DomainState) (raw : ℕ) :
    (update_status st raw).record = st.record := by
  unfold update_status
  dsimp only
  split
  · split <;> rfl
  · rfl

lemma update_status_maxRecord (st : DomainState) (raw : ℕ) :
    (update_status st raw).maxRecord = st.maxRecord := by
  unfold update_status
  dsimp only
  split
  · split <;> rfl
  · rfl

lemma update_status_statsNet (st : DomainState) (raw : ℕ) :
    (update_status st raw).statsNetSupported = st.statsNetSupported := by
  unfold update_status
  dsimp only
  split
  · split <;> rfl
  · rfl

lemma update_status_statsDisk (st : DomainState) (raw : ℕ) :
    (update_status st raw).statsDiskSupported = st.statsDiskSupported := by
  unfold update_status
  dsimp only
  split
  · split <;> rfl
  · rfl

lemma tick_not_active (env : Env) (inp : TickInput) (st : DomainState)
    (h : env.connActive = false) : tick env inp st = (st, ⟨[], []⟩) := by
  simp [tick, h]

lemma tick_fst_record (env : Env) (inp : TickInput) (st : DomainState)
    (h : env.connActive = true) :
    (tick env inp st).1.record =
      tick_sample env inp (invalidate_xml st) ::
        trim_record env.historyLength st.record := by
  simp [tick, h, update_status_record]
  rfl

lemma tick_fst_maxRecord (env : Env) (inp : TickInput) (st : DomainState)
    (h : env.connActive = true) :
    (tick env inp st).1.maxRecord =
      rate_fields.foldl
        (fun m f =>
          set_max_rate m f ((tick_sample env inp (invalidate_xml st)).rateOf f))
        st.maxRecord := by
  simp [tick, h, update_status_maxRecord]
  rfl

lemma tick_fst_statsNet (env : Env) (inp : TickInput) (st : DomainState)
    (h : env.connActive = true) :
    (tick env inp st).1.statsNetSupported =
      (poll_net env (invalidate_xml st) inp.netDevs).2.1 := by
  simp [tick, h, update_status_statsNet]

lemma tick_fst_statsDisk (env : Env) (inp : TickInput) (st : DomainState)
    (h : env.connActive = true) :
    (tick env inp st).1.statsDiskSupported =
      (poll_disk env (invalidate_xml st) inp.diskDevs).2.1 := by
  simp [tick, h, update_status_statsDisk]

lemma tick_snd (env : Env) (inp : TickInput) (st : DomainState)
    (h : env.connActive = true) :
    (tick env inp st).2 =
      ⟨(poll_net env (invalidate_xml st) inp.netDevs).2.2,
       (poll_disk env (invalidate_xml st) inp.diskDevs).2.2⟩ := by
  simp [tick, h]

lemma trim_record_length (cfg : ℕ) (r : List Sample) :
    (trim_record cfg r).length = min r.length cfg := by
  unfold trim_record
  split
  · rename_i h
    simp [List.length_take]
    omega
  · rename_i h
    omega

lemma tick_record_length (env : Env) (inp : TickInput) (st : DomainState)
    (h : env.connActive = true) :
    (tick env inp st).1.record.length =
      min st.record.length env.historyLength + 1 := by
  rw [tick_fst_record env inp st h]
  simp [trim_record_length]

lemma get_cur_rate_nonneg_aux (record : List Sample) (f : RateField) :
    0 ≤ get_cur_rate record f := by
  unfold get_cur_rate
  split
  · exact le_max_right _ _
  · exact le_max_right _ _

lemma set_max_rate_get_le (m : MaxRecord) (g f : RateField) (v : ℚ) :
    m.get f ≤ (set_max_rate m g v).get f := by
  unfold set_max_rate
  split
  · rename_i h
    by_cases hf : f = g
    · subst hf
      cases f <;> simp [MaxRecord.get, MaxRecord.set] <;> exact le_of_lt h
    · cases f <;> cases g <;> simp [MaxRecord.get, MaxRecord.set] at *
  · exact le_refl _

lemma set_max_rate_ge_arg (m : MaxRecord) (f : RateField) (v : ℚ) :
    v ≤ (set_max_rate m f v).get f := by
  unfold set_max_rate
  split
  · rename_i h
    cases f <;> simp [MaxRecord.get, MaxRecord.set]
  · rename_i h
    push_neg at h
    exact h

lemma foldl_set_max_get_le (l : List RateField) (rates : RateField → ℚ)
    (m : MaxRecord) (f : RateField) :
    m.get f ≤ (l.foldl (fun m g => set_max_rate m g (rates g)) m).get f := by
  induction l generalizing m with
  | nil => exact le_refl _
  | cons a as ih =>
    exact le_trans (set_max_rate_get_le m a f (rates a)) (ih _)

lemma foldl_set_max_ge_rate (l : List RateField) (rates : RateField → ℚ)
    (m : MaxRecord) (f : RateField) (hf : f ∈ l) :
    rates f ≤ (l.foldl (fun m g => set_max_rate m g (rates g)) m).get f := by
  induction l generalizing m with
  | nil => cases hf
  | cons a as ih =>
    rcases List.mem_cons.1 hf with h | h
    · subst h
      exact le_trans (set_max_rate_ge_arg m f (rates f))
        (foldl_set_max_get_le as rates _ f)
    · exact ih _ h

lemma rate_field_mem (f : RateField) : f ∈ rate_fields := by
  cases f <;> simp [rate_fields]

lemma mk_new_stats_rateOf (info : DomInfo) (now : ℚ) (hostProcs hostMem : ℤ)
    (record : List Sample) (rdB wrB rxB txB : ℤ) (f : RateField) :
    (mk_new_stats info now hostProcs hostMem record rdB wrB rxB txB).rateOf f =
      get_cur_rate record f := by
  cases f <;> simp [mk_new_stats, Sample.rateOf]

lemma sample_io_counters_not_supported (a : Bool) (devs : List StatDev) :
    sample_io_counters a false devs = ((0, 0), false, []) := by
  cases a <;> rfl

lemma sample_io_foldl_flag_false (devs : List StatDev)
    (acc : (ℤ × ℤ) × Bool × List String) (hacc : acc.2.1 = false) :
    (devs.foldl sample_io_step acc).2.1 = false := by
  induction devs generalizing acc with
  | nil => exact hacc
  | cons d ds ih =>
    rw [List.foldl_cons]
    apply ih
    unfold sample_io_step
    cases hd : d.dev with
    | none => exact hacc
    | some name => cases ho : d.outcome <;> simp [hacc]

lemma sample_io_foldl_unsupported (devs : List StatDev)
    (acc : (ℤ × ℤ) × Bool × List String)
    (hd : ∃ d ∈ devs, d.dev ≠ none ∧ d.outcome = QueryOutcome.errUnsupported) :
    (devs.foldl sample_io_step acc).2.1 = false := by
  induction devs generalizing acc with
  | nil =>
    obtain ⟨d, hmem, _⟩ := hd
    cases hmem
  | cons e es ih =>
    obtain ⟨d, hmem, hdev, hout⟩ := hd
    rw [List.foldl_cons]
    rcases List.mem_cons.1 hmem with h | h
    · subst h
      apply sample_io_foldl_flag_false
      unfold sample_io_step
      cases he : d.dev with
      | none => exact absurd he hdev
      | some name => rw [hout]
    · exact ih _ ⟨d, h, hdev, hout⟩

lemma sample_io_counters_unsupported (devs : List StatDev)
    (hd : ∃ d ∈ devs, d.dev ≠ none ∧ d.outcome = QueryOutcome.errUnsupported) :
    (sample_io_counters true true devs).2.1 = false := by
  unfold sample_io_counters
  simp only [Bool.not_true, Bool.or_self, Bool.false_eq_true, if_false]
  exact sample_io_foldl_unsupported devs _ hd

lemma find_first_idx_spec (p : DevNode → Bool) (l : List DevNode) (i : ℕ)
    (h : find_first_idx p l = some i) :
    i < l.length ∧ ∃ a, l.get? i = some a ∧ p a = true := by
  induction l generalizing i with
  | nil => cases h
  | cons a as ih =>
    unfold find_first_idx at h
    by_cases hp : p a
    · rw [if_pos hp] at h
      cases h
      exact ⟨Nat.succ_pos _, a, rfl, hp⟩
    · rw [if_neg hp] at h
      rcases Option.map_eq_some'.1 h with ⟨j, hj, rfl⟩
      obtain ⟨hlt, b, hb, hpb⟩ := ih j hj
      exact ⟨Nat.succ_lt_succ hlt, b, hb, hpb⟩

lemma unlink_nodes_aux_length (doc : List DevNode) (k : ℕ) (idxs : List ℕ) :
    (unlink_nodes_aux k doc idxs).length +
      ((List.range' k doc.length).countP (fun m => decide (m ∈ idxs))) =
      doc.length := by
  induction doc generalizing k with
  | nil => rfl
  | cons a as ih =>
    unfold unlink_nodes_aux
    rw [List.length_cons, List.range'_succ, List.countP_cons]
    have hrec := ih (k + 1)
    by_cases hk : k ∈ idxs
    · rw [if_pos hk]
      have hd : decide (k ∈ idxs) = true := decide_eq_true hk
      rw [hd, if_pos rfl]
      omega
    · rw [if_neg hk]
      have hd : decide (k ∈ idxs) = false := decide_eq_false hk
      rw [hd]
      simp only [Bool.false_eq_true, if_false, List.length_cons]
      omega

lemma countP_beq_range (n i : ℕ) (hi : i < n) :
    (List.range n).countP (fun m => m == i) = 1 := by
  induction n with
  | zero => omega
  | succ m ih =>
    rw [List.range_succ, List.countP_append]
    by_cases hm : i = m
    · subst hm
      have h0 : (List.range i).countP (fun m => m == i) = 0 := by
        rw [List.countP_eq_zero]
        intro a ha
        simp only [beq_iff_eq]
        have := List.mem_range.1 ha
        omega
      simp [h0]
    · have hlt : i < m := by omega
      have hmi : (m == i) = false := beq_eq_false_iff_ne.mpr (Ne.symm hm)
      have h1 : ([m].countP (fun x => x == i)) = 0 := by
        simp [List.countP, List.countP.go, hmi]
      rw [ih hlt, h1]

lemma countP_mem_pair (l : List ℕ) (i j : ℕ) (hij : i ≠ j) :
    l.countP (fun m => decide (m ∈ [i, j])) =
      l.countP (fun m => m == i) + l.countP (fun m => m == j) := by
  induction l with
  | nil => rfl
  | cons a as ih =>
    simp only [List.countP_cons, ih]
    by_cases ha : a = i
    · have hb : a ≠ j := by rw [ha]; exact hij
      simp [ha, hb, hij]
      omega
    · by_cases hb : a = j
      · simp [ha, hb, hij, Ne.symm hij]
        omega
      · simp [ha, hb]

lemma countP_mem_single (l : List ℕ) (i : ℕ) :
    l.countP (fun m => decide (m ∈ [i])) = l.countP (fun m => m == i) := by
  apply List.countP_congr
  intro a _
  by_cases h : a = i <;> simp [h]

lemma unlink_nodes_pair_length (doc : List DevNode) (i j : ℕ) (hij : i ≠ j)
    (hi : i < doc.length) (hj : j < doc.length) :
    (unlink_nodes doc [i, j]).length + 2 = doc.length := by
  have h := unlink_nodes_aux_length doc 0 [i, j]
  rw [← List.range_eq_range'] at h
  rw [countP_mem_pair _ i j hij, countP_beq_range _ i hi, countP_beq_range _ j hj] at h
  unfold unlink_nodes
  omega

lemma unlink_nodes_single_length (doc : List DevNode) (i : ℕ)
    (hi : i < doc.length) :
    (unlink_nodes doc [i]).length + 1 = doc.length := by
  have h := unlink_nodes_aux_length doc 0 [i]
  rw [← List.range_eq_range'] at h
  rw [countP_mem_single, countP_beq_range _ i hi] at h
  unfold unlink_nodes
  omega

lemma trim_record_subset (cfg : ℕ) (r : List Sample) :
    trim_record cfg r ⊆ r := by
  unfold trim_record
  split
  · exact List.take_subset _ _
  · exact List.Subset.refl _

lemma tick_sample_rateOf (env : Env) (inp : TickInput) (st : DomainState)
    (f : RateField) :
    (tick_sample env inp st).rateOf f =
      get_cur_rate (trim_record env.historyLength st.record) f := by
  unfold tick_sample
  exact mk_new_stats_rateOf _ _ _ _ _ _ _ _ _ f

lemma stats_inv_init (s0 : ℕ) : stats_inv (init_state s0) := by
  constructor
  · intro f
    unfold init_state
    rw [update_status_maxRecord]
    cases f <;> simp [fresh_state, MaxRecord.get]
  · intro s hs
    unfold init_state at hs
    rw [update_status_record] at hs
    cases hs

lemma stats_inv_tick (env : Env) (inp : TickInput) (st : DomainState)
    (h : stats_inv st) : stats_inv (tick env inp st).1 := by
  cases hc : env.connActive with
  | false => rw [tick_not_active env inp st hc]; exact h
  | true =>
    constructor
    · intro f
      rw [tick_fst_maxRecord env inp st hc]
      exact le_trans (h.1 f) (foldl_set_max_get_le _ _ _ f)
    · intro s hs f
      rw [tick_fst_maxRecord env inp st hc]
      rw [tick_fst_record env inp st hc] at hs
      rcases List.mem_cons.1 hs with hnew | hold
      · subst hnew
        constructor
        · rw [tick_sample_rateOf]
          exact get_cur_rate_nonneg_aux _ f
        · exact foldl_set_max_ge_rate rate_fields _ st.maxRecord f
            (rate_field_mem f)
      · have hrec : s ∈ st.record :=
          trim_record_subset env.historyLength st.record hold
        obtain ⟨h0, h1⟩ := h.2 s hrec f
        exact ⟨h0, le_trans h1 (foldl_set_max_get_le _ _ _ f)⟩

lemma stats_inv_run (l : List (Env × TickInput)) (st : DomainState)
    (h : stats_inv st) : stats_inv (run_ticks l st) := by
  induction l generalizing st with
  | nil => exact h
  | cons p rest ih =>
    exact ih _ (stats_inv_tick p.1 p.2 st h)

lemma tick_maxRecord_mono (env : Env) (inp : TickInput) (st : DomainState)
    (f : RateField) : st.maxRecord.get f ≤ (tick env inp st).1.maxRecord.get f := by
  cases hc : env.connActive with
  | false => rw [tick_not_active env inp st hc]
  | true =>
    rw [tick_fst_maxRecord env inp st hc]
    exact foldl_set_max_get_le _ _ _ f

lemma in_out_vector_bounds (cfg : ℕ) (st : DomainState) (f1 f2 : RateField)
    (h : stats_inv st) (x : ℚ) (hx : x ∈ in_out_vector_helper cfg st f1 f2) :
    0 ≤ x ∧ x ≤ 1 := by
  have hceil : (10 : ℚ) ≤ max (st.maxRecord.get f1) (st.maxRecord.get f2) :=
    le_trans (h.1 f1) (le_max_left _ _)
  have hpos : (0 : ℚ) < max (st.maxRecord.get f1) (st.maxRecord.get f2) := by
    linarith
  unfold in_out_vector_helper at hx
  have key : ∀ n : RateField, n = f1 ∨ n = f2 →
      x ∈ (List.range (cfg + 1)).map (fun i =>
        match st.record.get? i with
        | some s => s.rateOf n / max (st.maxRecord.get f1) (st.maxRecord.get f2)
        | none => 0) → 0 ≤ x ∧ x ≤ 1 := by
    intro n hn hmem
    rcases List.mem_map.1 hmem with ⟨i, _, hxi⟩
    cases hq : st.record.get? i with
    | none =>
      rw [hq] at hxi
      simp only at hxi
      subst hxi
      constructor <;> norm_num
    | some s =>
      rw [hq] at hxi
      simp only at hxi
      subst hxi
      have hsmem : s ∈ st.record := List.get?_mem hq
      obtain ⟨h0, h1⟩ := h.2 s hsmem n
      have hle : s.rateOf n ≤ max (st.maxRecord.get f1) (st.maxRecord.get f2) := by
        rcases hn with hn | hn <;> subst hn
        · exact le_trans h1 (le_max_left _ _)
        · exact le_trans h1 (le_max_right _ _)
      constructor
      · exact div_nonneg h0 (le_of_lt hpos)
      · rw [div_le_one hpos]
        exact hle
  rcases List.mem_append.1 hx with hmem | hmem
  · exact key f1 (Or.inl rfl) hmem
  · exact key f2 (Or.inr rfl) hmem
lemma init_state_record (s0 : ℕ) : (init_state s0).record = [] := by
  unfold init_state
  rw [update_status_record]
  rfl

lemma run_ticks_record_length (env : Env) (inps : List TickInput)
    (st : DomainState) (h : st.record.length ≤ env.historyLength + 1) :
    (run_ticks (inps.map (fun i => (env, i))) st).record.length ≤
      env.historyLength + 1 := by
  induction inps generalizing st with
  | nil => exact h
  | cons i rest ih =>
    simp only [List.map_cons, run_ticks]
    apply ih
    cases hc : env.connActive with
    | false => rw [tick_not_active _ _ _ hc]; exact h
    | true => rw [tick_record_length _ _ _ hc]; omega

lemma get_inactive_xml_fst_isXmlValid (b : Backend) (st : DomainState) :
    (get_inactive_xml b st).1.isXmlValid = st.isXmlValid := by
  unfold get_inactive_xml
  cases st.inactiveXml <;> rfl

lemma get_inactive_xml_of_none (b : Backend) (st : DomainState)
    (h : st.inactiveXml = none) : (get_inactive_xml b st).2 = b.inactiveDesc := by
  unfold get_inactive_xml
  rw [h]

lemma poll_net_not_supported (env : Env) (st : DomainState)
    (devs : List StatDev) (h : st.statsNetSupported = false) :
    poll_net env st devs = ((0, 0), false, []) := by
  unfold poll_net sample_network_traffic
  rw [h]
  split
  · exact sample_io_counters_not_supported _ devs
  · rfl

lemma poll_disk_not_supported (env : Env) (st : DomainState)
    (devs : List StatDev) (h : st.statsDiskSupported = false) :
    poll_disk env st devs = ((0, 0), false, []) := by
  unfold poll_disk sample_disk_traffic
  rw [h]
  split
  · exact sample_io_counters_not_supported _ devs
  · rfl

lemma sample_cpu_stats_percent_bounds (record : List Sample) (info : DomInfo)
    (now : ℚ) (hostProcs : ℤ) :
    0 ≤ (sample_cpu_stats record info now hostProcs).2.2 ∧
      (sample_cpu_stats record info now hostProcs).2.2 ≤ 100 := by
  unfold sample_cpu_stats
  dsimp only
  split
  · norm_num
  · split_ifs with h1 h2 h3 <;> constructor <;> dsimp only <;> linarith

lemma mk_new_stats_cpuTimePercent (info : DomInfo) (now : ℚ)
    (hostProcs hostMem : ℤ) (record : List Sample) (rdB wrB rxB txB : ℤ) :
    (mk_new_stats info now hostProcs hostMem record rdB wrB rxB txB).cpuTimePercent =
      (sample_cpu_stats record info now hostProcs).2.2 := by
  unfold mk_new_stats
  rfl

lemma mk_new_stats_avg_nil (info : DomInfo) (now : ℚ)
    (hostProcs hostMem : ℤ) (rdB wrB rxB txB : ℤ) :
    (mk_new_stats info now hostProcs hostMem [] rdB wrB rxB txB).cpuTimeMovingAvg =
        MovingAvg.strList ["cpuTimeAbs"] ∧
      (mk_new_stats info now hostProcs hostMem [] rdB wrB rxB
        txB).cpuTimeMovingAvgPercent = 0 := by
  unfold mk_new_stats
  exact ⟨rfl, rfl⟩

lemma mk_new_stats_avg_cons (info : DomInfo) (now : ℚ)
    (hostProcs hostMem : ℤ) (r0 : Sample) (rest : List Sample)
    (rdB wrB rxB txB : ℤ) :
    ∃ z, (mk_new_stats info now hostProcs hostMem (r0 :: rest) rdB wrB rxB
        txB).cpuTimeMovingAvg = MovingAvg.num z := by
  unfold mk_new_stats
  exact ⟨_, rfl⟩

lemma mk_new_stats_netKB (info : DomInfo) (now : ℚ)
    (hostProcs hostMem : ℤ) (record : List Sample) (rdB wrB rxB txB : ℤ) :
    (mk_new_stats info now hostProcs hostMem record rdB wrB rxB txB).netRxKB =
        rxB.fdiv 1024 ∧
      (mk_new_stats info now hostProcs hostMem record rdB wrB rxB txB).netTxKB =
        txB.fdiv 1024 ∧
      (mk_new_stats info now hostProcs hostMem record rdB wrB rxB txB).diskRdKB =
        rdB.fdiv 1024 ∧
      (mk_new_stats info now hostProcs hostMem record rdB wrB rxB txB).diskWrKB =
        wrB.fdiv 1024 := by
  unfold mk_new_stats
  exact ⟨rfl, rfl, rfl, rfl⟩
lemma tick_sample_avg_nil (env : Env) (inp : TickInput) (st : DomainState)
    (h : trim_record env.historyLength st.record = []) :
    (tick_sample env inp st).cpuTimeMovingAvg = MovingAvg.strList ["cpuTimeAbs"] ∧
      (tick_sample env inp st).cpuTimeMovingAvgPercent = 0 := by
  unfold tick_sample
  rw [h]
  exact mk_new_stats_avg_nil _ _ _ _ _ _ _ _

lemma tick_sample_avg_cons (env : Env) (inp : TickInput) (st : DomainState)
    (h : trim_record env.historyLength st.record ≠ []) :
    ∃ z, (tick_sample env inp st).cpuTimeMovingAvg = MovingAvg.num z := by
  unfold tick_sample
  cases hr : trim_record env.historyLength st.record with
  | nil => exact absurd hr h
  | cons r0 rest => exact mk_new_stats_avg_cons _ _ _ _ _ _ _ _ _ _

lemma node_matches_serial (port : String) (n : DevNode) :
    node_matches DevType.serial port n = true ↔ n = DevNode.serial port := by
  cases n <;> simp [node_matches, eq_comm]

lemma node_matches_console (port : String) (n : DevNode) :
    node_matches DevType.console port n = true ↔ n = DevNode.console port := by
  cases n <;> simp [node_matches, eq_comm]

lemma get_device_nodes_serial_both (doc : List DevNode) (port : String)
    (i j : ℕ)
    (hs : find_first_idx (node_matches DevType.serial port) doc = some i)
    (hc : find_first_idx (node_matches DevType.console port) doc = some j) :
    get_device_xml_nodes doc DevType.serial port = Except.ok [i, j] := by
  unfold get_device_xml_nodes
  rw [hs, hc]
  simp

lemma get_device_nodes_serial_only (doc : List DevNode) (port : String)
    (i : ℕ)
    (hs : find_first_idx (node_matches DevType.serial port) doc = some i)
    (hc : find_first_idx (node_matches DevType.console port) doc = none) :
    get_device_xml_nodes doc DevType.serial port = Except.ok [i] := by
  unfold get_device_xml_nodes
  rw [hs, hc]
  simp

/-! Claim theorems. -/

lemma cx_tick1 (cfg : ℕ) :
    (tick (cx_env cfg) (cx_inp 1 0) (init_state VIR_DOMAIN_SHUTOFF)).1 =
      cx_state1 := by
  simp [tick, cx_env, cx_inp, init_state, fresh_state, update_status,
        invalidate_xml, tick_sample, mk_new_stats, sample_cpu_stats,
        sample_mem_stats, poll_disk, poll_net, sample_io_counters,
        sample_network_traffic, sample_disk_traffic, get_cur_rate,
        set_max_rate, rate_fields, normalize_status, MaxRecord.get,
        MaxRecord.set, Sample.rateOf, trim_record, dom0_info, cx_state1,
        cx_sample1, VIR_DOMAIN_NOSTATE, VIR_DOMAIN_RUNNING,
        VIR_DOMAIN_BLOCKED, VIR_DOMAIN_SHUTOFF, VIR_DOMAIN_CRASHED,
        VIR_DOMAIN_SHUTDOWN]
  norm_num

/-- C1 counterexample: a concrete two-tick run (reachable from the initial
state) in which the stored instantaneous cpuTimePercent is clamped to 100 but
the stored cpuTimeMovingAvgPercent is 20000, far outside [0, 100]: the moving
average percent is computed without any clamp. -/
theorem c1_counterexample :
    ((run_ticks [(cx_env 5, cx_inp 1 0), (cx_env 5, cx_inp 2 200000000000)]
        (init_state VIR_DOMAIN_SHUTOFF)).record.head?.map
      (fun s => (s.cpuTimePercent, s.cpuTimeMovingAvgPercent))) =
      some (100, 20000) ∧
    ¬ ((20000 : ℚ) ≤ 100) := by
  constructor
  · simp only [run_ticks]
    rw [cx_tick1 5]
    simp [tick, cx_env, cx_inp, update_status, invalidate_xml, tick_sample,
          mk_new_stats, sample_cpu_stats, sample_mem_stats, poll_disk,
          poll_net, get_cur_rate, set_max_rate, rate_fields, normalize_status,
          MaxRecord.get, MaxRecord.set, Sample.rateOf, trim_record, dom0_info,
          cx_state1, cx_sample1, VIR_DOMAIN_NOSTATE, VIR_DOMAIN_RUNNING,
          VIR_DOMAIN_BLOCKED, VIR_DOMAIN_SHUTOFF, VIR_DOMAIN_CRASHED,
          VIR_DOMAIN_SHUTDOWN]
    norm_num
  · norm_num

/-- C1 (amended): for every tick the instantaneous CPU percent stored in the
new sample lies within [0, 100] regardless of wall-clock vs hypervisor-clock
skew in the inputs; the moving-average percent is stored unclamped (see the
counterexample). -/
theorem c1_cpu_percent_clamped (info : DomInfo) (now : ℚ)
    (hostProcs hostMem : ℤ) (record : List Sample) (rdB wrB rxB txB : ℤ) :
    0 ≤ (mk_new_stats info now hostProcs hostMem record rdB wrB rxB
        txB).cpuTimePercent ∧
      (mk_new_stats info now hostProcs hostMem record rdB wrB rxB
        txB).cpuTimePercent ≤ 100 := by
  rw [mk_new_stats_cpuTimePercent]
  exact sample_cpu_stats_percent_bounds record info now hostProcs

/-- C2 counterexample: with a configured retention length of 2, three
consecutive ticks from the initial state leave 3 samples in the history, so
the history exceeds the configured retention length after tick returns. -/
theorem c2_counterexample :
    (run_ticks [(cx_env 2, cx_inp 1 0), (cx_env 2, cx_inp 2 0),
        (cx_env 2, cx_inp 3 0)] (init_state VIR_DOMAIN_SHUTOFF)).record.length =
      3 ∧
    ¬ (3 ≤ (cx_env 2).historyLength) := by
  constructor
  · simp only [run_ticks]
    rw [tick_record_length _ _ _ rfl, tick_record_length _ _ _ rfl,
        tick_record_length _ _ _ rfl, init_state_record]
    rfl
  · decide

/-- C2 (amended): for every number of consecutive ticks under a fixed
configured retention length, the sample history never exceeds the retention
length plus one once tick returns (tick trims the history to the retention
length and then prepends exactly one new sample). -/
theorem c2_record_length_bounded (env : Env) (inps : List TickInput)
    (s0 : ℕ) :
    (run_ticks (inps.map (fun i => (env, i)))
        (init_state s0)).record.length ≤ env.historyLength + 1 := by
  apply run_ticks_record_length
  rw [init_state_record]
  simp

/-- C4: for every pair of consecutive samples and every rate field, the
derived rate computed at a tick is never negative, even when the current
cumulative counter value is smaller than the previous one: _get_cur_rate
returns max(ret, 0, 0), a Python three-argument max that floors at zero. -/
theorem c4_cur_rate_nonneg (record : List Sample) (f : RateField) :
    0 ≤ get_cur_rate record f :=
  get_cur_rate_nonneg_aux record f

/-- C3 counterexample: redefine with the identity transformation on a
stopped domain whose cached XML is marked invalid performs no submission, but
the cached XML validity state is NOT left unchanged: selecting the base
document forces a refresh that sets the validity flag from false to true. -/
theorem c3_counterexample :
    (redefine cx_env_stopped (cx_inp 1 0) cx_backend cx_state_invalid
        id id).2 = [] ∧
    cx_state_invalid.isXmlValid = false ∧
    (redefine cx_env_stopped (cx_inp 1 0) cx_backend cx_state_invalid
        id id).1.isXmlValid = true := by
  refine ⟨?_, rfl, ?_⟩ <;>
    simp [redefine, get_xml_to_define, get_xml, xml_fetch_helper, refresh_xml,
          invalidate_xml, cx_env_stopped, cx_env, cx_backend, cx_state_invalid,
          fresh_state]

/-- C3 (amended): for every base document, redefine applied with the
identity transformation (a transform whose output equals the normalized base)
performs no submission: the define/submit collaborator call does not occur;
and for an active domain (whose base is the inactive document) the cached XML
validity state is left unchanged.  For an inactive domain the base-document
selection itself forces a refresh that can set the validity flag. -/
theorem c3_redefine_identity_no_submit (env : Env) (inp : TickInput)
    (b : Backend) (st : DomainState) (normalize xml_func : String → String)
    (hid : ∀ x, xml_func (normalize x) = normalize x) :
    (redefine env inp b st normalize xml_func).2 = [] ∧
    (env.domId ≠ -1 →
      (redefine env inp b st normalize xml_func).1.isXmlValid = st.isXmlValid) := by
  have hcond : normalize (get_xml_to_define env inp b st).2 =
      xml_func (normalize (get_xml_to_define env inp b st).2) := (hid _).symm
  constructor
  · simp only [redefine]
    rw [if_pos hcond]
  · intro hdom
    simp only [redefine]
    rw [if_pos hcond]
    show (get_xml_to_define env inp b st).1.isXmlValid = st.isXmlValid
    unfold get_xml_to_define
    rw [if_pos hdom]
    exact get_inactive_xml_fst_isXmlValid b st

theorem c3_redefine_identity_no_submit_witness :
    (redefine (cx_env 5) (cx_inp 1 0) cx_backend fresh_state id id).2 = [] ∧
    ((cx_env 5).domId ≠ -1 →
      (redefine (cx_env 5) (cx_inp 1 0) cx_backend fresh_state
          id id).1.isXmlValid = fresh_state.isXmlValid) :=
  c3_redefine_identity_no_submit (cx_env 5) (cx_inp 1 0) cx_backend
    fresh_state id id (fun _ => rfl)

/-- C5: addressing a serial device by target port returns the serial node
together with any console node sharing the same target port, so removing a
serial device with a paired console at that port removes both nodes (document
shrinks by two), while removing a serial device with no console at that port
removes only the serial node (document shrinks by one). -/
theorem c5_serial_addressing_includes_console (doc : List DevNode)
    (port : String) (i : ℕ)
    (hs : find_first_idx (node_matches DevType.serial port) doc = some i) :
    (∀ j, find_first_idx (node_matches DevType.console port) doc = some j →
      get_device_xml_nodes doc DevType.serial port = Except.ok [i, j] ∧
      doc.get? i = some (DevNode.serial port) ∧
      doc.get? j = some (DevNode.console port) ∧
      remove_xml_device doc DevType.serial port =
        Except.ok (unlink_nodes doc [i, j]) ∧
      (unlink_nodes doc [i, j]).length + 2 = doc.length) ∧
    (find_first_idx (node_matches DevType.console port) doc = none →
      get_device_xml_nodes doc DevType.serial port = Except.ok [i] ∧
      doc.get? i = some (DevNode.serial port) ∧
      remove_xml_device doc DevType.serial port =
        Except.ok (unlink_nodes doc [i]) ∧
      (unlink_nodes doc [i]).length + 1 = doc.length) := by
  obtain ⟨hilt, a, hga, hpa⟩ := find_first_idx_spec _ _ _ hs
  have hai : doc.get? i = some (DevNode.serial port) := by
    rw [hga, (node_matches_serial port a).1 hpa]
  constructor
  · intro j hc
    obtain ⟨hjlt, bnode, hgb, hpb⟩ := find_first_idx_spec _ _ _ hc
    have haj : doc.get? j = some (DevNode.console port) := by
      rw [hgb, (node_matches_console port bnode).1 hpb]
    have hij : i ≠ j := by
      intro hij
      rw [hij, haj] at hai
      cases hai
    have hnodes := get_device_nodes_serial_both doc port i j hs hc
    refine ⟨hnodes, hai, haj, ?_, ?_⟩
    · unfold remove_xml_device
      rw [hnodes]
      rfl
    · exact unlink_nodes_pair_length doc i j hij hilt hjlt
  · intro hc
    have hnodes := get_device_nodes_serial_only doc port i hs hc
    refine ⟨hnodes, hai, ?_, ?_⟩
    · unfold remove_xml_device
      rw [hnodes]
      rfl
    · exact unlink_nodes_single_length doc i hilt

theorem c5_serial_addressing_includes_console_witness :
    get_device_xml_nodes cx_doc DevType.serial "0" = Except.ok [1, 2] ∧
    (unlink_nodes cx_doc [1, 2]).length + 2 = cx_doc.length := by
  have h := (c5_serial_addressing_includes_console cx_doc "0" 1 (by decide)).1
    2 (by decide)
  exact ⟨h.1, h.2.2.2.2⟩

/-- C6: remove_device on a device absent from the inactive document but
present in the active document returns success without performing any
submission; if the device is absent from both documents the original lookup
failure is propagated to the caller. -/
theorem c6_remove_device_converged_or_propagate
    (inactiveDoc activeDoc : List DevNode) (t : DevType) (id e : String)
    (h1 : get_device_xml_nodes inactiveDoc t id = Except.error e) :
    (∀ ns, get_device_xml_nodes activeDoc t id = Except.ok ns →
      remove_device_doc inactiveDoc activeDoc t id = Except.ok none) ∧
    (∀ e2, get_device_xml_nodes activeDoc t id = Except.error e2 →
      remove_device_doc inactiveDoc activeDoc t id = Except.error e) := by
  constructor
  · intro ns h2
    unfold remove_device_doc check_device_is_present
    rw [h1, h2]
  · intro e2 h2
    unfold remove_device_doc check_device_is_present
    rw [h1, h2]

/-- C6: remove_device on a device absent from the inactive document but
present in the active document returns success without performing any
submission; if the device is absent from both documents the original lookup
failure is propagated to the caller. -/
theorem c6_remove_device_converged_or_propagate_witness :
    remove_device_doc [] [DevNode.serial "0"] DevType.serial "0" =
      Except.ok none ∧
    remove_device_doc [] [] DevType.serial "0" =
      Except.error "Could not find device" := by
  constructor
  · exact (c6_remove_device_converged_or_propagate [] [DevNode.serial "0"]
      DevType.serial "0" "Could not find device" rfl).1 [0] rfl
  · exact (c6_remove_device_converged_or_propagate [] [] DevType.serial "0"
      "Could not find device" rfl).2 "Could not find device" rfl

/-- C7: once a counter category is marked unsupported, every subsequent
tick queries no device of that category, reports 0 KB for it in the new
sample, and keeps the category disabled; and a tick whose query hits a
VIR_ERR_NO_SUPPORT error (with polling enabled on an active domain) marks the
category unsupported; over any sequence of ticks from a disabled state no
query of that category is ever made again. -/
theorem c7_unsupported_disables_category :
    (∀ (env : Env) (inp : TickInput) (st : DomainState),
      st.statsNetSupported = false →
      (tick env inp st).1.statsNetSupported = false ∧
      (tick env inp st).2.netQueried = [] ∧
      (env.connActive = true → ∀ s, (tick env inp st).1.record.head? = some s →
        s.netRxKB = 0 ∧ s.netTxKB = 0)) ∧
    (∀ (env : Env) (inp : TickInput) (st : DomainState),
      st.statsDiskSupported = false →
      (tick env inp st).1.statsDiskSupported = false ∧
      (tick env inp st).2.diskQueried = [] ∧
      (env.connActive = true → ∀ s, (tick env inp st).1.record.head? = some s →
        s.diskRdKB = 0 ∧ s.diskWrKB = 0)) ∧
    (∀ (env : Env) (inp : TickInput) (st : DomainState),
      env.connActive = true → env.netPollEnabled = true → env.domId ≠ -1 →
      st.statsNetSupported = true →
      (∃ d ∈ inp.netDevs, d.dev ≠ none ∧
        d.outcome = QueryOutcome.errUnsupported) →
      (tick env inp st).1.statsNetSupported = false) ∧
    (∀ (env : Env) (inp : TickInput) (st : DomainState),
      env.connActive = true → env.diskPollEnabled = true → env.domId ≠ -1 →
      st.statsDiskSupported = true →
      (∃ d ∈ inp.diskDevs, d.dev ≠ none ∧
        d.outcome = QueryOutcome.errUnsupported) →
      (tick env inp st).1.statsDiskSupported = false) ∧
    (∀ (l : List (Env × TickInput)) (st : DomainState),
      st.statsNetSupported = false →
      (run_traces l st).1.statsNetSupported = false ∧
      ∀ tr ∈ (run_traces l st).2, tr.netQueried = []) ∧
    (∀ (l : List (Env × TickInput)) (st : DomainState),
      st.statsDiskSupported = false →
      (run_traces l st).1.statsDiskSupported = false ∧
      ∀ tr ∈ (run_traces l st).2, tr.diskQueried = []) := by
  have hnet : ∀ (env : Env) (inp : TickInput) (st : DomainState),
      st.statsNetSupported = false →
      (tick env inp st).1.statsNetSupported = false ∧
      (tick env inp st).2.netQueried = [] ∧
      (env.connActive = true → ∀ s, (tick env inp st).1.record.head? = some s →
        s.netRxKB = 0 ∧ s.netTxKB = 0) := by
    intro env inp st h
    cases hc : env.connActive with
    | false =>
      rw [tick_not_active _ _ _ hc]
      refine ⟨h, rfl, ?_⟩
      intro htrue
      exact Bool.noConfusion htrue
    | true =>
      have hinv : (invalidate_xml st).statsNetSupported = false := h
      refine ⟨?_, ?_, ?_⟩
      · rw [tick_fst_statsNet _ _ _ hc, poll_net_not_supported _ _ _ hinv]
      · rw [tick_snd _ _ _ hc]
        show (poll_net env (invalidate_xml st) inp.netDevs).2.2 = []
        rw [poll_net_not_supported _ _ _ hinv]
      · intro _ s hs
        rw [tick_fst_record _ _ _ hc] at hs
        rw [List.head?_cons] at hs
        cases hs
        unfold tick_sample
        rw [poll_net_not_supported _ _ _ hinv]
        obtain ⟨h1, h2, h3, h4⟩ := mk_new_stats_netKB
          (dom0_info env inp.info) inp.now env.hostProcs env.hostMem
          (trim_record env.historyLength (invalidate_xml st).record)
          (poll_disk env (invalidate_xml st) inp.diskDevs).1.1
          (poll_disk env (invalidate_xml st) inp.diskDevs).1.2 0 0
        exact ⟨h1, h2⟩
  have hdisk : ∀ (env : Env) (inp : TickInput) (st : DomainState),
      st.statsDiskSupported = false →
      (tick env inp st).1.statsDiskSupported = false ∧
      (tick env inp st).2.diskQueried = [] ∧
      (env.connActive = true → ∀ s, (tick env inp st).1.record.head? = some s →
        s.diskRdKB = 0 ∧ s.diskWrKB = 0) := by
    intro env inp st h
    cases hc : env.connActive with
    | false =>
      rw [tick_not_active _ _ _ hc]
      refine ⟨h, rfl, ?_⟩
      intro htrue
      exact Bool.noConfusion htrue
    | true =>
      have hinv : (invalidate_xml st).statsDiskSupported = false := h
      refine ⟨?_, ?_, ?_⟩
      · rw [tick_fst_statsDisk _ _ _ hc, poll_disk_not_supported _ _ _ hinv]
      · rw [tick_snd _ _ _ hc]
        show (poll_disk env (invalidate_xml st) inp.diskDevs).2.2 = []
        rw [poll_disk_not_supported _ _ _ hinv]
      · intro _ s hs
        rw [tick_fst_record _ _ _ hc] at hs
        rw [List.head?_cons] at hs
        cases hs
        unfold tick_sample
        rw [poll_disk_not_supported _ _ _ hinv]
        obtain ⟨h1, h2, h3, h4⟩ := mk_new_stats_netKB
          (dom0_info env inp.info) inp.now env.hostProcs env.hostMem
          (trim_record env.historyLength (invalidate_xml st).record) 0 0
          (poll_net env (invalidate_xml st) inp.netDevs).1.1
          (poll_net env (invalidate_xml st) inp.netDevs).1.2
        exact ⟨h3, h4⟩
  refine ⟨hnet, hdisk, ?_, ?_, ?_, ?_⟩
  · intro env inp st hc hpoll hdom hsup hex
    rw [tick_fst_statsNet _ _ _ hc]
    unfold poll_net sample_network_traffic
    rw [if_pos hpoll]
    have hd : decide (env.domId ≠ -1) = true := decide_eq_true hdom
    rw [hd]
    have : (invalidate_xml st).statsNetSupported = true := hsup
    rw [this]
    exact sample_io_counters_unsupported inp.netDevs hex
  · intro env inp st hc hpoll hdom hsup hex
    rw [tick_fst_statsDisk _ _ _ hc]
    unfold poll_disk sample_disk_traffic
    rw [if_pos hpoll]
    have hd : decide (env.domId ≠ -1) = true := decide_eq_true hdom
    rw [hd]
    have : (invalidate_xml st).statsDiskSupported = true := hsup
    rw [this]
    exact sample_io_counters_unsupported inp.diskDevs hex
  · intro l
    induction l with
    | nil => intro st h; exact ⟨h, by intro tr htr; cases htr⟩
    | cons p rest ih =>
      intro st h
      obtain ⟨hflag, hq, _⟩ := hnet p.1 p.2 st h
      obtain ⟨hrest1, hrest2⟩ := ih _ hflag
      refine ⟨hrest1, ?_⟩
      intro tr htr
      rcases List.mem_cons.1 htr with htr | htr
      · rw [htr]; exact hq
      · exact hrest2 tr htr
  · intro l
    induction l with
    | nil => intro st h; exact ⟨h, by intro tr htr; cases htr⟩
    | cons p rest ih =>
      intro st h
      obtain ⟨hflag, hq, _⟩ := hdisk p.1 p.2 st h
      obtain ⟨hrest1, hrest2⟩ := ih _ hflag
      refine ⟨hrest1, ?_⟩
      intro tr htr
      rcases List.mem_cons.1 htr with htr | htr
      · rw [htr]; exact hq
      · exact hrest2 tr htr

theorem c7_unsupported_disables_category_witness :
    (tick (cx_env 5) (cx_inp 1 0) cx_state_unsup).1.statsNetSupported = false ∧
    (tick (cx_env 5) (cx_inp 1 0) cx_state_unsup).2.netQueried = [] ∧
    (tick (cx_env 5) (cx_inp 1 0) cx_state_unsup).1.statsDiskSupported = false ∧
    (tick (cx_env 5) (cx_inp 1 0) cx_state_unsup).2.diskQueried = [] := by
  have hn := c7_unsupported_disables_category.1 (cx_env 5) (cx_inp 1 0)
    cx_state_unsup rfl
  have hd := c7_unsupported_disables_category.2.1 (cx_env 5) (cx_inp 1 0)
    cx_state_unsup rfl
  exact ⟨hn.1, hn.2.1, hd.1, hd.2.1⟩

/-- C8: every lifecycle transition whose prior normalized state is one of
shutting-down, shut-off or crashed clears the cached inactive document, so
the next inactive read fetches fresh from the backend; transitions from other
prior states leave the cached inactive document untouched. -/
theorem c8_transition_clears_inactive_xml (st : DomainState) (raw p : ℕ)
    (hp : st.lastStatus = some p) :
    (p ∈ [VIR_DOMAIN_SHUTDOWN, VIR_DOMAIN_SHUTOFF, VIR_DOMAIN_CRASHED] →
      normalize_status raw ≠ p →
      (update_status st raw).inactiveXml = none ∧
      ∀ b, (get_inactive_xml b (update_status st raw)).2 = b.inactiveDesc) ∧
    (p ∉ [VIR_DOMAIN_SHUTDOWN, VIR_DOMAIN_SHUTOFF, VIR_DOMAIN_CRASHED] →
      (update_status st raw).inactiveXml = st.inactiveXml) := by
  constructor
  · intro hmem hne
    have hcond : some (normalize_status raw) ≠ st.lastStatus := by
      rw [hp]
      intro hcc
      exact hne (Option.some.inj hcc)
    have hmem2 : st.lastStatus ∈ [some VIR_DOMAIN_SHUTDOWN,
        some VIR_DOMAIN_SHUTOFF, some VIR_DOMAIN_CRASHED] := by
      rw [hp]
      simp only [List.mem_cons, List.mem_singleton, Option.some.injEq,
        List.not_mem_nil, or_false] at hmem ⊢
      exact hmem
    have hXml : (update_status st raw).inactiveXml = none := by
      unfold update_status
      dsimp only
      rw [if_pos hcond, if_pos hmem2]
    exact ⟨hXml, fun b => get_inactive_xml_of_none b _ hXml⟩
  · intro hmem
    have hmem2 : st.lastStatus ∉ [some VIR_DOMAIN_SHUTDOWN,
        some VIR_DOMAIN_SHUTOFF, some VIR_DOMAIN_CRASHED] := by
      rw [hp]
      simp only [List.mem_cons, List.mem_singleton, Option.some.injEq,
        List.not_mem_nil, or_false] at hmem ⊢
      exact hmem
    simp only [update_status]
    rw [if_neg hmem2]
    split <;> rfl

theorem c8_transition_clears_inactive_xml_witness :
    (update_status cx_state_shutoff VIR_DOMAIN_RUNNING).inactiveXml = none ∧
    (get_inactive_xml cx_backend
        (update_status cx_state_shutoff VIR_DOMAIN_RUNNING)).2 =
      cx_backend.inactiveDesc := by
  have h := (c8_transition_clears_inactive_xml cx_state_shutoff
    VIR_DOMAIN_RUNNING VIR_DOMAIN_SHUTOFF rfl).1 (by decide) (by decide)
  exact ⟨h.1, h.2 cx_backend⟩

/-- C9: in every state reachable from __init__ by ticks, each maxRecord
entry is at least its initial 10.0 and only ever increases across a tick,
every recorded rate lies in [0, maxRecord of its field], the normalization
ceiling (the larger of the two paired maxima) is never zero, and every
normalized in/out chart vector entry lies in [0, 1]. -/
theorem c9_chart_normalization_invariant (l : List (Env × TickInput))
    (s0 cfg : ℕ) (f1 f2 : RateField) :
    (∀ f, 10 ≤ (run_ticks l (init_state s0)).maxRecord.get f) ∧
    (∀ (env : Env) (inp : TickInput) (f : RateField),
      (run_ticks l (init_state s0)).maxRecord.get f ≤
        (tick env inp (run_ticks l (init_state s0))).1.maxRecord.get f) ∧
    (∀ s, s ∈ (run_ticks l (init_state s0)).record → ∀ f,
      0 ≤ s.rateOf f ∧
        s.rateOf f ≤ (run_ticks l (init_state s0)).maxRecord.get f) ∧
    0 < max ((run_ticks l (init_state s0)).maxRecord.get f1)
        ((run_ticks l (init_state s0)).maxRecord.get f2) ∧
    (∀ x, x ∈ in_out_vector_helper cfg (run_ticks l (init_state s0)) f1 f2 →
      0 ≤ x ∧ x ≤ 1) := by
  have hinv := stats_inv_run l _ (stats_inv_init s0)
  refine ⟨hinv.1, ?_, hinv.2, ?_, ?_⟩
  · intro env inp f
    exact tick_maxRecord_mono env inp _ f
  · have h1 := hinv.1 f1
    have h2 := le_max_left ((run_ticks l (init_state s0)).maxRecord.get f1)
      ((run_ticks l (init_state s0)).maxRecord.get f2)
    linarith
  · intro x hx
    exact in_out_vector_bounds cfg _ f1 f2 hinv x hx

theorem c9_chart_normalization_invariant_witness :
    (0 : ℚ) ≤ 0 ∧ (0 : ℚ) ≤ 1 := by
  have hx : (0 : ℚ) ∈ in_out_vector_helper 0
      (run_ticks [] (init_state VIR_DOMAIN_SHUTOFF)) RateField.netRx
      RateField.netTx := by
    simp [in_out_vector_helper, run_ticks, init_state_record]
  exact (c9_chart_normalization_invariant [] VIR_DOMAIN_SHUTOFF 0
    RateField.netRx RateField.netTx).2.2.2.2 0 hx

/-- C10 counterexample: with a configured retention length of 0, the
second tick begins with a non-empty one-sample history, yet the stored
cpuTimeMovingAvg of its new sample is still the list ["cpuTimeAbs"]
(the trim empties the window before the moving average is computed), so
"for every later tick (history non-empty) both fields are numeric" fails
as stated. -/
theorem c10_counterexample :
    (run_ticks [(cx_env 0, cx_inp 1 0)]
        (init_state VIR_DOMAIN_SHUTOFF)).record.length = 1 ∧
    ((run_ticks [(cx_env 0, cx_inp 1 0), (cx_env 0, cx_inp 2 0)]
        (init_state VIR_DOMAIN_SHUTOFF)).record.head?.map
      (fun s => s.cpuTimeMovingAvg)) =
      some (MovingAvg.strList ["cpuTimeAbs"]) := by
  constructor
  · simp only [run_ticks]
    rw [cx_tick1 0]
    rfl
  · simp only [run_ticks]
    rw [cx_tick1 0]
    rw [tick_fst_record _ _ _ rfl]
    have h := tick_sample_avg_nil (cx_env 0) (cx_inp 2 0)
      (invalidate_xml cx_state1)
      (by simp [trim_record, invalidate_xml, cx_state1, cx_env])
    simp [h.1]

/-- C10 (amended): when the post-trim history at the moving-average step is
empty (in particular on the very first tick), the window size is 0 and the
new sample stores cpuTimeMovingAvg = ["cpuTimeAbs"] (a list, not a number)
with cpuTimeMovingAvgPercent = 0; whenever the post-trim history is non-empty
(every later tick with retention length at least 1), the stored
cpuTimeMovingAvg is numeric. -/
theorem c10_moving_avg_window (env : Env) (inp : TickInput) (st : DomainState)
    (hc : env.connActive = true) :
    (trim_record env.historyLength st.record = [] →
      ∀ s, (tick env inp st).1.record.head? = some s →
        s.cpuTimeMovingAvg = MovingAvg.strList ["cpuTimeAbs"] ∧
        s.cpuTimeMovingAvgPercent = 0) ∧
    (trim_record env.historyLength st.record ≠ [] →
      ∀ s, (tick env inp st).1.record.head? = some s →
        ∃ z, s.cpuTimeMovingAvg = MovingAvg.num z) := by
  constructor
  · intro hnil s hs
    rw [tick_fst_record _ _ _ hc, List.head?_cons] at hs
    cases hs
    exact tick_sample_avg_nil env inp (invalidate_xml st) hnil
  · intro hne s hs
    rw [tick_fst_record _ _ _ hc, List.head?_cons] at hs
    cases hs
    exact tick_sample_avg_cons env inp (invalidate_xml st) hne

theorem c10_moving_avg_window_witness :
    (tick_sample (cx_env 5) (cx_inp 1 0)
        (invalidate_xml fresh_state)).cpuTimeMovingAvg =
      MovingAvg.strList ["cpuTimeAbs"] ∧
    (tick_sample (cx_env 5) (cx_inp 1 0)
        (invalidate_xml fresh_state)).cpuTimeMovingAvgPercent = 0 :=
  (c10_moving_avg_window (cx_env 5) (cx_inp 1 0) fresh_state rfl).1 rfl
    (tick_sample (cx_env 5) (cx_inp 1 0) (invalidate_xml fresh_state))
    (by rw [tick_fst_record _ _ _ rfl, List.head?_cons])
